import Mathlib

/-!
Verification of the trauma severity classification engine of the
safety-companion-api repository (`medical_core.py`, consumed by
`api_server.py`).

The repository's alternate-protocol classifier
`perform_ranger_trauma_assessment` is embedded directly from
`medical_core.py`.  The civilian-protocol classifier
`perform_trauma_assessment` is imported and called by `api_server.py` but
its definition is not present in the repository sources, so it is modelled
from the specification (section 4.1).
-/

/-- A patient-data mapping.  Every key of the input dictionary may be
absent, hence each field is an `Option`; `patient_data.get(key, default)`
in the source becomes `Option.getD`. -/
structure PatientData where
  mechanismOfInjury : Option String
  reportedSymptoms : Option (List String)
  conscious : Option Bool
  age : Option Int
  gender : Option String
  obviousBleeding : Option Bool
  deriving DecidableEq

/-- Output shape of `perform_ranger_trauma_assessment` (the dictionary
returned at the end of the function in `medical_core.py`). -/
structure AssessmentResult where
  severity_level : String
  immediate_actions : List String
  assessment_steps : List String
  red_flags : List String
  next_steps : List String
  protocol_source : String
  deriving DecidableEq

/-- `RANGER_LIFESAVING_STEPS["priority_order"]` from `medical_core.py`. -/
def RANGER_LIFESAVING_STEPS_priority_order : List String :=
  [("stop_life_threatening_bleeding"),
   ("open_airway_restore_breathing"),
   ("stop_bleeding_protect_wound"),
   ("treat_monitor_shock"),
   ("prepare_medevac")]

/-- `RANGER_CARE_UNDER_FIRE["immediate_actions"]` from `medical_core.py`. -/
def RANGER_CARE_UNDER_FIRE_immediate_actions : List String :=
  [("maintain_situational_awareness"),
   ("return_fire"),
   ("determine_casualty_status"),
   ("casualty_self_aide"),
   ("protect_casualty"),
   ("move_to_cover"),
   ("control_severe_bleeding_tourniquet")]

/-- `RANGER_SHOCK_PROTOCOL["signs_symptoms"]` from `medical_core.py`. -/
def RANGER_SHOCK_PROTOCOL_signs_symptoms : List String :=
  [("sweaty_cool_clammy_skin"),
   ("pale_skin"),
   ("restlessness_nervousness_agitation"),
   ("unusual_thirst"),
   ("altered_mental_status"),
   ("rapid_breathing"),
   ("blotchy_bluish_skin_around_mouth"),
   ("nausea")]

/-- `RANGER_ENVIRONMENTAL_PROTOCOLS["heat_injuries"]["heat_stroke"]["treatment"]`. -/
def RANGER_HEAT_STROKE_treatment : List String :=
  [("move_cool_shade_remove_clothing"),
   ("immerse_cool_water_or_pour_on_head_body"),
   ("fan_increase_cooling_evaporation"),
   ("conscious_slowly_consume_one_quart_water")]

/-- `RANGER_ENVIRONMENTAL_PROTOCOLS["heat_injuries"]["heat_stroke"]["warning"]`. -/
def RANGER_HEAT_STROKE_warning : String :=
  "MEDICAL EMERGENCY - evacuate immediately"

/-- The three f-strings built from `RANGER_ABC_PROTOCOL` at lines 180-184 of
`medical_core.py`, with the interpolated dictionary values substituted. -/
def RANGER_ABC_ASSESSMENT_STEPS : List String :=
  [("Airway: Check for obstruction at base of tongue. If trauma, use Use jaw thrust method."),
   ("Breathing: Expose chest, identify open wounds. If open chest wound, Apply occlusive dressing to entry/exit wounds."),
   ("Circulation: Control arterial bleeding with Tourniquet 2-3 inches above elbow/knee.")]

/-- `perform_ranger_trauma_assessment` from `medical_core.py`, lines 157-210.
Each `let` shadows the previous binding the way the Python code mutates its
local variables; `[:]` copies become plain reads of the module constants. -/
def perform_ranger_trauma_assessment (patient_data : PatientData) : AssessmentResult :=
  let severity : String :=
    if patient_data.conscious.getD true = false then ("critical")
    else if patient_data.obviousBleeding.getD false = true then ("serious")
    else ("unknown")
  let immediate_actions := RANGER_CARE_UNDER_FIRE_immediate_actions
  let immediate_actions :=
    if severity = "critical" ∧ ("control_severe_bleeding_tourniquet") ∉ immediate_actions
    then immediate_actions ++ [("control_severe_bleeding_tourniquet")]
    else immediate_actions
  let assessment_steps := RANGER_ABC_ASSESSMENT_STEPS
  let red_flags : List String := []
  let red_flags :=
    if severity = "critical"
    then red_flags ++ [("CRITICAL CASUALTY - IMMEDIATE EVACUATION REQUIRED.")]
    else red_flags
  let red_flags :=
    if (patient_data.reportedSymptoms.getD []).any
        (fun symptom => RANGER_SHOCK_PROTOCOL_signs_symptoms.contains symptom)
    then red_flags ++ [("Signs of shock present.")]
    else red_flags
  let next_steps := RANGER_LIFESAVING_STEPS_priority_order
  let next_steps :=
    if ("heat_stroke") ∈ patient_data.reportedSymptoms.getD []
    then next_steps ++ RANGER_HEAT_STROKE_treatment ++ [RANGER_HEAT_STROKE_warning]
    else next_steps
  { severity_level := severity,
    immediate_actions := immediate_actions,
    assessment_steps := assessment_steps,
    red_flags := red_flags,
    next_steps := next_steps,
    protocol_source := ("US Army Ranger Handbook Chapter 15") }

/-- The module-level mutable state of `medical_core.py`: the list objects
stored in the `RANGER_*` dictionaries that `perform_ranger_trauma_assessment`
reads.  Used to state the no-shared-mutable-list property. -/
structure ModuleState where
  care_under_fire_immediate_actions : List String
  lifesaving_priority_order : List String
  shock_signs_symptoms : List String
  heat_stroke_treatment : List String
  heat_stroke_warning : String
  deriving DecidableEq

/-- The module state as initialised by the top-level literals of
`medical_core.py`. -/
def initState : ModuleState :=
  { care_under_fire_immediate_actions := RANGER_CARE_UNDER_FIRE_immediate_actions,
    lifesaving_priority_order := RANGER_LIFESAVING_STEPS_priority_order,
    shock_signs_symptoms := RANGER_SHOCK_PROTOCOL_signs_symptoms,
    heat_stroke_treatment := RANGER_HEAT_STROKE_treatment,
    heat_stroke_warning := RANGER_HEAT_STROKE_warning }

/-- State-passing embedding of a call to `perform_ranger_trauma_assessment`:
the body reads the module lists out of the state, the `[:]` copies at lines
173 and 197 of `medical_core.py` mean every subsequent `append`/`extend`
acts on a fresh local list, and the function never assigns to a module
global, so the state component of the result is the input state. -/
def rangerCall (s : ModuleState) (patient_data : PatientData) :
    ModuleState × AssessmentResult :=
  let severity : String :=
    if patient_data.conscious.getD true = false then ("critical")
    else if patient_data.obviousBleeding.getD false = true then ("serious")
    else ("unknown")
  let immediate_actions := s.care_under_fire_immediate_actions
  let immediate_actions :=
    if severity = "critical" ∧ ("control_severe_bleeding_tourniquet") ∉ immediate_actions
    then immediate_actions ++ [("control_severe_bleeding_tourniquet")]
    else immediate_actions
  let assessment_steps := RANGER_ABC_ASSESSMENT_STEPS
  let red_flags : List String := []
  let red_flags :=
    if severity = "critical"
    then red_flags ++ [("CRITICAL CASUALTY - IMMEDIATE EVACUATION REQUIRED.")]
    else red_flags
  let red_flags :=
    if (patient_data.reportedSymptoms.getD []).any
        (fun symptom => s.shock_signs_symptoms.contains symptom)
    then red_flags ++ [("Signs of shock present.")]
    else red_flags
  let next_steps := s.lifesaving_priority_order
  let next_steps :=
    if ("heat_stroke") ∈ patient_data.reportedSymptoms.getD []
    then next_steps ++ s.heat_stroke_treatment ++ [s.heat_stroke_warning]
    else next_steps
  (s,
   { severity_level := severity,
     immediate_actions := immediate_actions,
     assessment_steps := assessment_steps,
     red_flags := red_flags,
     next_steps := next_steps,
     protocol_source := ("US Army Ranger Handbook Chapter 15") })

/-- Lower-casing of a string, character by character (Python `str.lower()`
on the ASCII texts this classifier matches against). -/
def toLowerStr (s : String) : String := String.mk (s.data.map Char.toLower)

/-- `charsStartWith needle hay`: `hay` starts with `needle`. -/
def charsStartWith : List Char → List Char → Bool
  | [], _ => true
  | _ :: _, [] => false
  | a :: ns, b :: hs => a == b && charsStartWith ns hs

/-- `charsContainSub needle hay`: `needle` occurs contiguously in `hay`. -/
def charsContainSub : List Char → List Char → Bool
  | needle, [] => needle.isEmpty
  | needle, b :: hs => charsStartWith needle (b :: hs) || charsContainSub needle hs

/-- Substring containment: `needle in hay` of the Python source
(`"arterial" in mechanism.lower()` and the mechanism trigger checks). -/
def containsSubstr (hay needle : String) : Bool :=
  charsContainSub needle.data hay.data

/-- The three required keys of a casualty report are all present. -/
def validInput (patient_data : PatientData) : Prop :=
  patient_data.mechanismOfInjury.isSome = true ∧
  patient_data.reportedSymptoms.isSome = true ∧
  patient_data.conscious.isSome = true

instance (patient_data : PatientData) : Decidable (validInput patient_data) :=
  inferInstanceAs (Decidable (And _ _))

/-- Output shape of the civilian classifier (spec section 3). -/
structure ClassificationResult where
  severityLevel : String
  immediateActions : List String
  assessmentSteps : List String
  redFlags : List String
  nextSteps : List String
  deriving DecidableEq

/-- Modelled from the spec: the two universal actions that begin every
non-error `immediateActions` list (spec section 3). -/
def UNIVERSAL_ACTIONS : List String :=
  [("ensure scene safety"), ("call for emergency services")]

/-- Modelled from the spec: CPR action inserted for an unconscious patient
(spec section 4.1, rule 1). -/
def CPR_ACTION : String := "begin CPR if not breathing/gasping and trained"

/-- Modelled from the spec: the direct-pressure/tourniquet action of rule 2;
the spec names the action without fixing its exact text. -/
def BLEEDING_ACTION : String :=
  "apply direct pressure to the wound and use a tourniquet for severe limb bleeding"

/-- Modelled from the spec: the airway/ventilation action of rule 3; the spec
names the action without fixing its exact text. -/
def AIRWAY_ACTION : String := "keep the airway open and support breathing"

/-- Modelled from the spec: the spinal-immobilization action of rule 4; the
spec names the action without fixing its exact text. -/
def SPINAL_ACTION : String := "immobilize the head and spine"

/-- The breathing-difficulty symptom set of rule 3 (spec section 4.1). -/
def BREATHING_SYMPTOMS : List String :=
  [("difficulty breathing"), ("shortness of breath"), ("no breathing"), ("gasping")]

/-- Modelled from the spec: the breathing red flag of rule 3; the spec names
the flag without fixing its exact text. -/
def BREATHING_RED_FLAG : String := "Breathing difficulty reported."

/-- Modelled from the spec: the high-risk-mechanism red flag of rule 4; the
spec names the flag without fixing its exact text. -/
def HIGH_RISK_RED_FLAG : String := "High-risk mechanism of injury."

/-- Modelled from the spec: the cardiac/thoracic red flag of the chest-pain
cross-cutting rule; the spec names the flag without fixing its exact text. -/
def CHEST_PAIN_RED_FLAG : String :=
  "Chest pain reported - possible cardiac or thoracic emergency."

/-- Modelled from the spec: the fixed six-item ABCDE primary-survey checklist
(spec sections 3 and 8); the spec fixes the count and the ABCDE structure
without fixing the exact item texts. -/
def ABCDE_CHECKLIST : List String :=
  [("Airway: check that the airway is clear"),
   ("Breathing: check breathing rate and effort"),
   ("Circulation: check pulse and look for bleeding"),
   ("Disability: check responsiveness and pupils"),
   ("Exposure: examine for hidden injuries"),
   ("Reassess the patient regularly")]

/-- Modelled from the spec: the fixed follow-up checklist returned as
`nextSteps` for every non-error outcome (spec section 3); the spec fixes that
it is constant without fixing the exact item texts. -/
def CIVILIAN_NEXT_STEPS : List String :=
  [("monitor the patient until emergency services arrive"),
   ("note any changes in condition"),
   ("hand over findings to emergency services")]

/-- Modelled from the spec: the civilian-protocol classifier
`perform_trauma_assessment` is imported from `medical_core` by
`api_server.py` and called by `handle_trauma_assessment`, but its definition
is absent from the repository sources.  This definition follows spec
section 4.1: the missing-required-field precondition check returning the
sentinel error result, then the five-branch priority chain (first match
wins), then the chest-pain cross-cutting escalation; substring matching is
on lower-cased mechanism text, symptom matching is exact membership in the
lower-cased symptom list (spec section 4.1, matching paragraph). -/
def perform_trauma_assessment (patient_data : PatientData) : ClassificationResult :=
  if patient_data.mechanismOfInjury.isNone || patient_data.reportedSymptoms.isNone ||
      patient_data.conscious.isNone then
    { severityLevel := ("unknown"),
      immediateActions :=
        [("Error: Missing required patient data (mechanismOfInjury, reportedSymptoms, conscious).")],
      assessmentSteps := [],
      redFlags := [("Missing critical input data.")],
      nextSteps := [("Re-submit with complete data.")] }
  else
    let mechanism := toLowerStr (patient_data.mechanismOfInjury.getD (""))
    let symptoms := (patient_data.reportedSymptoms.getD []).map toLowerStr
    let conscious := patient_data.conscious.getD true
    let obviousBleeding := patient_data.obviousBleeding.getD false
    let chain : String × List String × List String :=
      if conscious = false then
        (("critical"), UNIVERSAL_ACTIONS.insertIdx 1 CPR_ACTION,
         [("Patient is unconscious.")])
      else if obviousBleeding = true ∨ ("severe bleeding") ∈ symptoms then
        ((if containsSubstr mechanism ("arterial") then ("critical") else ("serious")),
         UNIVERSAL_ACTIONS.insertIdx 1 BLEEDING_ACTION,
         [("Obvious or reported severe bleeding.")])
      else if BREATHING_SYMPTOMS.any (fun s => symptoms.contains s) then
        (("critical"), UNIVERSAL_ACTIONS.insertIdx 1 AIRWAY_ACTION, [BREATHING_RED_FLAG])
      else if containsSubstr mechanism ("fall from height") ∨
          containsSubstr mechanism ("motor vehicle accident") ∨
          containsSubstr mechanism ("diving accident") then
        (("serious"), UNIVERSAL_ACTIONS ++ [SPINAL_ACTION], [HIGH_RISK_RED_FLAG])
      else
        (("moderate"), UNIVERSAL_ACTIONS, ([] : List String))
    let severityLevel := chain.1
    let immediateActions := chain.2.1
    let redFlags := chain.2.2
    let severityLevel :=
      if ("chest pain") ∈ symptoms ∧ severityLevel ≠ ("critical") ∧
          severityLevel ≠ ("serious")
      then ("serious") else severityLevel
    let redFlags :=
      if ("chest pain") ∈ symptoms then redFlags ++ [CHEST_PAIN_RED_FLAG] else redFlags
    { severityLevel := severityLevel,
      immediateActions := immediateActions,
      assessmentSteps := ABCDE_CHECKLIST,
      redFlags := redFlags,
      nextSteps := CIVILIAN_NEXT_STEPS }

/-- Input whose `mechanismOfInjury` key is absent. -/
def pdMissingMechanism : PatientData :=
  ⟨none, some [("dizzy")], some true, none, none, none⟩

/-- Input whose `conscious` field is `false` but whose `mechanismOfInjury`
key is absent. -/
def pdUnconsciousNoMechanism : PatientData :=
  ⟨none, some [], some false, none, none, none⟩

/-- Complete input with an unconscious patient. -/
def pdUnconscious : PatientData :=
  ⟨some ("fall from 20ft ladder"), some [("unresponsive")], some false, none,
    none, some true⟩

/-- Input reporting chest pain whose `conscious` key is absent. -/
def pdChestPainNoConscious : PatientData :=
  ⟨some ("cut finger"), some [("chest pain")], none, none, none, none⟩

/-- Complete input reporting chest pain (mixed casing). -/
def pdChestPain : PatientData :=
  ⟨some ("fell onto a rock chest first"), some [("Chest Pain")], some true,
    none, none, some false⟩

/-- Input with obvious bleeding and a conscious patient but no
`mechanismOfInjury` key. -/
def pdBleedingNoMechanism : PatientData :=
  ⟨none, some [], some true, none, none, some true⟩

/-- Complete input with obvious bleeding and an arterial mechanism. -/
def pdArterial : PatientData :=
  ⟨some ("Arterial laceration of left arm"), some [], some true, none, none,
    some true⟩

/-- Complete conscious input matching no trigger except the chest-pain
symptom. -/
def pdChestPainOnly : PatientData :=
  ⟨some ("stubbed toe"), some [("chest pain")], some true, none, none,
    some false⟩

/-- Complete conscious input matching no trigger at all. -/
def pdStubbedToe : PatientData :=
  ⟨some ("stubbed toe"), some [("mild pain")], some true, none, none,
    some false⟩

/-- Complete conscious input with an unmatched mechanism. -/
def pdTwistedAnkle : PatientData :=
  ⟨some ("twisted ankle on hike"), some [("pain in ankle")], some true, none,
    none, some false⟩

/-- Complete input with the heat-stroke symptom token and an unconscious
patient. -/
def pdHeatStroke : PatientData :=
  ⟨some ("collapsed in the sun"), some [("heat_stroke")], some false, none,
    none, none⟩

/-- Input whose `conscious` key is absent. -/
def pdNoConsciousKey : PatientData :=
  ⟨some ("unknown"), some [("dizzy")], none, none, none, none⟩

/-- C4: `perform_ranger_trauma_assessment` determines severity by
unconscious → critical, else obvious bleeding → serious, else the unmatched
default "unknown"; it always returns the fixed provenance label in
`protocol_source`; and the heat-stroke treatment steps and warning are
appended to `next_steps` after the lifesaving-steps priority list exactly
when the literal token "heat_stroke" is an element of `reportedSymptoms`. -/
theorem ranger_severity_rule_heat_stroke_extension (pd : PatientData) :
    (perform_ranger_trauma_assessment pd).severity_level =
      (if pd.conscious.getD true = false then ("critical")
       else if pd.obviousBleeding.getD false = true then ("serious")
       else ("unknown")) ∧
    (perform_ranger_trauma_assessment pd).protocol_source =
      "US Army Ranger Handbook Chapter 15" ∧
    (perform_ranger_trauma_assessment pd).next_steps =
      RANGER_LIFESAVING_STEPS_priority_order ++
        (if ("heat_stroke") ∈ pd.reportedSymptoms.getD []
         then RANGER_HEAT_STROKE_treatment ++ [RANGER_HEAT_STROKE_warning]
         else []) := by
  refine ⟨rfl, rfl, ?_⟩
  by_cases h : ("heat_stroke") ∈ pd.reportedSymptoms.getD [] <;>
    simp [perform_ranger_trauma_assessment, h]

/-- C9: for every input, `immediate_actions` is exactly the seven-element
care-under-fire list in its fixed order; the conditional append of
"control_severe_bleeding_tourniquet" for critical severity never executes
because that string is already an element of the copied base list. -/
theorem ranger_immediate_actions_constant (pd : PatientData) :
    (perform_ranger_trauma_assessment pd).immediate_actions =
      [("maintain_situational_awareness"), ("return_fire"),
       ("determine_casualty_status"), ("casualty_self_aide"),
       ("protect_casualty"), ("move_to_cover"),
       ("control_severe_bleeding_tourniquet")] := by
  simp [perform_ranger_trauma_assessment, RANGER_CARE_UNDER_FIRE_immediate_actions]

/-- C10: `perform_ranger_trauma_assessment` only ever produces a severity in
{"unknown", "critical", "serious"} (never "moderate" or "minor"), and an
input missing the `conscious` key is classified exactly as if it were
conscious (the lookup defaults to true), yielding a normal result and never
an error sentinel. -/
theorem ranger_severity_range_missing_conscious (pd : PatientData) :
    ((perform_ranger_trauma_assessment pd).severity_level = "unknown" ∨
     (perform_ranger_trauma_assessment pd).severity_level = "critical" ∨
     (perform_ranger_trauma_assessment pd).severity_level = "serious") ∧
    (pd.conscious = none →
      perform_ranger_trauma_assessment pd =
        perform_ranger_trauma_assessment
          { pd with conscious := some true }) := by
  constructor
  · by_cases h1 : pd.conscious.getD true = false
    · right; left; simp [perform_ranger_trauma_assessment, h1]
    · by_cases h2 : pd.obviousBleeding.getD false = true
      · right; right; simp [perform_ranger_trauma_assessment, h1, h2]
      · left; simp [perform_ranger_trauma_assessment, h1, h2]
  · intro h
    simp [perform_ranger_trauma_assessment, h]

/-- C10 witness: at an input whose `conscious` key is absent, the severity is
in the allowed set and the result equals the conscious-defaulted result. -/
theorem ranger_severity_range_missing_conscious_witness :
    ((perform_ranger_trauma_assessment pdNoConsciousKey).severity_level =
        "unknown" ∨
     (perform_ranger_trauma_assessment pdNoConsciousKey).severity_level =
        "critical" ∨
     (perform_ranger_trauma_assessment pdNoConsciousKey).severity_level =
        "serious") ∧
    perform_ranger_trauma_assessment pdNoConsciousKey =
      perform_ranger_trauma_assessment
        { pdNoConsciousKey with conscious := some true } :=
  ⟨(ranger_severity_range_missing_conscious pdNoConsciousKey).1,
   (ranger_severity_range_missing_conscious pdNoConsciousKey).2 rfl⟩

/-- C8: two classifier calls never observe each other's inserted or appended
items: running a call after another yields the same output the second call
produces alone from the same module state, a call leaves the module state
unchanged, and a call from the initial module state computes exactly the
pure function. -/
theorem ranger_calls_do_not_interfere (s : ModuleState) (a b : PatientData) :
    (rangerCall (rangerCall s a).1 b).2 = (rangerCall s b).2 ∧
    (rangerCall s a).1 = s ∧
    (rangerCall initState a).2 = perform_ranger_trauma_assessment a :=
  ⟨rfl, rfl, rfl⟩

/-- C1: for every input mapping missing any of the keys mechanismOfInjury,
reportedSymptoms, or conscious, the classifier returns, before any decision
rule runs, the sentinel error result with severityLevel "unknown", the
single "Error:" immediate action, empty assessmentSteps, the missing-data
red flag, and the re-submit next step. -/
theorem missing_required_field_error_result (pd : PatientData)
    (h : pd.mechanismOfInjury = none ∨ pd.reportedSymptoms = none ∨
      pd.conscious = none) :
    perform_trauma_assessment pd =
      { severityLevel := ("unknown"),
        immediateActions :=
          [("Error: Missing required patient data (mechanismOfInjury, reportedSymptoms, conscious).")],
        assessmentSteps := [],
        redFlags := [("Missing critical input data.")],
        nextSteps := [("Re-submit with complete data.")] } := by
  rcases h with h | h | h <;> simp [perform_trauma_assessment, h]

/-- C1 witness: the error result at a concrete input missing
`mechanismOfInjury`. -/
theorem missing_required_field_error_result_witness :
    (pdMissingMechanism.mechanismOfInjury = none ∨
      pdMissingMechanism.reportedSymptoms = none ∨
      pdMissingMechanism.conscious = none) ∧
    perform_trauma_assessment pdMissingMechanism =
      { severityLevel := ("unknown"),
        immediateActions :=
          [("Error: Missing required patient data (mechanismOfInjury, reportedSymptoms, conscious).")],
        assessmentSteps := [],
        redFlags := [("Missing critical input data.")],
        nextSteps := [("Re-submit with complete data.")] } :=
  ⟨Or.inl rfl, missing_required_field_error_result pdMissingMechanism (Or.inl rfl)⟩

/-- C2 counterexample: an input whose `conscious` field is false but whose
`mechanismOfInjury` key is absent is classified by the precondition check,
so its severity is "unknown", not "critical". -/
theorem unconscious_of_invalid_input_not_critical :
    pdUnconsciousNoMechanism.conscious = some false ∧
    (perform_trauma_assessment pdUnconsciousNoMechanism).severityLevel =
      "unknown" := by
  constructor
  · rfl
  · decide

/-- C2 (amended): for every input containing the three required fields whose
conscious field is false, the classifier returns severityLevel "critical",
the CPR action appears at index 1 of immediateActions, and
"Patient is unconscious." is in redFlags. -/
theorem unconscious_implies_critical_with_cpr (pd : PatientData)
    (hm : pd.mechanismOfInjury.isSome = true)
    (hs : pd.reportedSymptoms.isSome = true)
    (hc : pd.conscious = some false) :
    (perform_trauma_assessment pd).severityLevel = "critical" ∧
    (perform_trauma_assessment pd).immediateActions.get? 1 = some CPR_ACTION ∧
    ("Patient is unconscious.") ∈ (perform_trauma_assessment pd).redFlags := by
  obtain ⟨m, hm2⟩ := Option.isSome_iff_exists.mp hm
  obtain ⟨ss, hs2⟩ := Option.isSome_iff_exists.mp hs
  by_cases hcp : ("chest pain") ∈ ss.map toLowerStr <;>
    simp [perform_trauma_assessment, hm2, hs2, hc, hcp, UNIVERSAL_ACTIONS,
      List.insertIdx]

/-- C2 witness: the amended claim at a complete unconscious input. -/
theorem unconscious_implies_critical_with_cpr_witness :
    (perform_trauma_assessment pdUnconscious).severityLevel = "critical" ∧
    (perform_trauma_assessment pdUnconscious).immediateActions.get? 1 =
      some CPR_ACTION ∧
    ("Patient is unconscious.") ∈
      (perform_trauma_assessment pdUnconscious).redFlags :=
  unconscious_implies_critical_with_cpr pdUnconscious rfl rfl rfl

/-- C3 counterexample: an input containing the symptom "chest pain" whose
`conscious` key is absent gets the sentinel error result: no cardiac red
flag is appended and the severity is neither critical nor serious. -/
theorem chest_pain_without_required_fields_unescalated :
    ("chest pain") ∈
      (pdChestPainNoConscious.reportedSymptoms.getD []).map toLowerStr ∧
    CHEST_PAIN_RED_FLAG ∉
      (perform_trauma_assessment pdChestPainNoConscious).redFlags ∧
    (perform_trauma_assessment pdChestPainNoConscious).severityLevel ≠
      "critical" ∧
    (perform_trauma_assessment pdChestPainNoConscious).severityLevel ≠
      "serious" := by decide

/-- C3 (amended): for every input containing the three required fields and
containing the symptom "chest pain" (case-insensitive exact element of
reportedSymptoms), the classifier appends the cardiac/thoracic red flag and
the final severity is critical or serious, so any input that would
otherwise classify below serious classifies as at least serious. -/
theorem chest_pain_escalates_severity (pd : PatientData)
    (hm : pd.mechanismOfInjury.isSome = true)
    (hs : pd.reportedSymptoms.isSome = true)
    (hc : pd.conscious.isSome = true)
    (hcp : ("chest pain") ∈ (pd.reportedSymptoms.getD []).map toLowerStr) :
    CHEST_PAIN_RED_FLAG ∈ (perform_trauma_assessment pd).redFlags ∧
    ((perform_trauma_assessment pd).severityLevel = "critical" ∨
     (perform_trauma_assessment pd).severityLevel = "serious") := by
  obtain ⟨m, hm2⟩ := Option.isSome_iff_exists.mp hm
  obtain ⟨ss, hs2⟩ := Option.isSome_iff_exists.mp hs
  obtain ⟨c, hc2⟩ := Option.isSome_iff_exists.mp hc
  rw [hs2, Option.getD_some] at hcp
  simp only [perform_trauma_assessment, hm2, hs2, hc2]
  split_ifs <;> simp_all

/-- C3 witness: the amended claim at a complete input reporting
"Chest Pain" in mixed casing. -/
theorem chest_pain_escalates_severity_witness :
    CHEST_PAIN_RED_FLAG ∈ (perform_trauma_assessment pdChestPain).redFlags ∧
    ((perform_trauma_assessment pdChestPain).severityLevel = "critical" ∨
     (perform_trauma_assessment pdChestPain).severityLevel = "serious") :=
  chest_pain_escalates_severity pdChestPain rfl rfl rfl (by decide)

/-- C6 counterexample: an input with conscious true and obviousBleeding true
but no `mechanismOfInjury` key gets the sentinel error result: severity is
neither critical nor serious, and no bleeding action sits at index 1. -/
theorem bleeding_without_mechanism_key_unknown :
    pdBleedingNoMechanism.conscious = some true ∧
    pdBleedingNoMechanism.obviousBleeding.getD false = true ∧
    (perform_trauma_assessment pdBleedingNoMechanism).severityLevel ≠
      "critical" ∧
    (perform_trauma_assessment pdBleedingNoMechanism).severityLevel ≠
      "serious" ∧
    (perform_trauma_assessment pdBleedingNoMechanism).immediateActions.get? 1 ≠
      some BLEEDING_ACTION := by decide

/-- C6 (amended): for every input containing the three required fields with
conscious true and obviousBleeding true (or the literal symptom
"severe bleeding" present), the classifier returns severityLevel "critical"
when the mechanism text contains "arterial" (case-insensitive substring)
and "serious" otherwise, the direct-pressure/tourniquet action is at
index 1 of immediateActions, and "Obvious or reported severe bleeding." is
in redFlags. -/
theorem bleeding_branch_severity_and_action (pd : PatientData) (m : String)
    (ss : List String)
    (hm : pd.mechanismOfInjury = some m)
    (hs : pd.reportedSymptoms = some ss)
    (hc : pd.conscious = some true)
    (hb : pd.obviousBleeding.getD false = true ∨
      ("severe bleeding") ∈ ss.map toLowerStr) :
    (perform_trauma_assessment pd).severityLevel =
      (if containsSubstr (toLowerStr m) ("arterial") then ("critical")
       else ("serious")) ∧
    (perform_trauma_assessment pd).immediateActions.get? 1 =
      some BLEEDING_ACTION ∧
    ("Obvious or reported severe bleeding.") ∈
      (perform_trauma_assessment pd).redFlags := by
  by_cases ha : containsSubstr (toLowerStr m) ("arterial") = true <;>
  by_cases hcp : ("chest pain") ∈ ss.map toLowerStr <;>
  rcases hb with hb | hb <;>
    simp [perform_trauma_assessment, hm, hs, hc, hb, ha, hcp, UNIVERSAL_ACTIONS,
      List.insertIdx]

/-- C6 witness: the amended claim at a complete input with obvious bleeding
and an arterial mechanism text. -/
theorem bleeding_branch_severity_and_action_witness :
    (perform_trauma_assessment pdArterial).severityLevel =
      (if containsSubstr (toLowerStr ("Arterial laceration of left arm"))
          ("arterial") then ("critical") else ("serious")) ∧
    (perform_trauma_assessment pdArterial).immediateActions.get? 1 =
      some BLEEDING_ACTION ∧
    ("Obvious or reported severe bleeding.") ∈
      (perform_trauma_assessment pdArterial).redFlags :=
  bleeding_branch_severity_and_action pdArterial
    ("Arterial laceration of left arm") [] rfl rfl rfl (Or.inl rfl)

/-- C7 counterexample: an input with conscious true, no bleeding indication,
no breathing-difficulty symptom and an unmatched mechanism, but reporting
"chest pain", is escalated by the cross-cutting rule and does not classify
as "moderate". -/
theorem chest_pain_breaks_moderate_default :
    pdChestPainOnly.conscious = some true ∧
    pdChestPainOnly.obviousBleeding.getD false = false ∧
    ("severe bleeding") ∉
      (pdChestPainOnly.reportedSymptoms.getD []).map toLowerStr ∧
    (BREATHING_SYMPTOMS.any fun s =>
      ((pdChestPainOnly.reportedSymptoms.getD []).map toLowerStr).contains s) =
      false ∧
    containsSubstr (toLowerStr (pdChestPainOnly.mechanismOfInjury.getD ("")))
      ("fall from height") = false ∧
    containsSubstr (toLowerStr (pdChestPainOnly.mechanismOfInjury.getD ("")))
      ("motor vehicle accident") = false ∧
    containsSubstr (toLowerStr (pdChestPainOnly.mechanismOfInjury.getD ("")))
      ("diving accident") = false ∧
    (perform_trauma_assessment pdChestPainOnly).severityLevel ≠ "moderate" := by
  decide

/-- C7 (amended): for every input containing the three required fields with
conscious true, no bleeding indication, no breathing-difficulty symptom, no
chest-pain symptom, and a mechanism text matching no trigger phrase, the
classifier returns severityLevel "moderate" and its assessmentSteps equals
the fixed six-item ABCDE checklist exactly. -/
theorem unmatched_conscious_input_moderate (pd : PatientData) (m : String)
    (ss : List String)
    (hm : pd.mechanismOfInjury = some m)
    (hs : pd.reportedSymptoms = some ss)
    (hc : pd.conscious = some true)
    (hb : pd.obviousBleeding.getD false = false)
    (hsb : ("severe bleeding") ∉ ss.map toLowerStr)
    (hbr : (BREATHING_SYMPTOMS.any fun s => (ss.map toLowerStr).contains s) = false)
    (hm1 : containsSubstr (toLowerStr m) ("fall from height") = false)
    (hm2 : containsSubstr (toLowerStr m) ("motor vehicle accident") = false)
    (hm3 : containsSubstr (toLowerStr m) ("diving accident") = false)
    (hcp : ("chest pain") ∉ ss.map toLowerStr) :
    (perform_trauma_assessment pd).severityLevel = "moderate" ∧
    (perform_trauma_assessment pd).assessmentSteps = ABCDE_CHECKLIST := by
  simp [perform_trauma_assessment, hm, hs, hc, hb, hsb, hbr, hm1, hm2, hm3, hcp,
    -List.mem_map, -List.any_eq_true]
  have hbr2 : (BREATHING_SYMPTOMS.any fun s =>
      decide (s ∈ List.map toLowerStr ss)) = false := by simpa using hbr
  rw [hbr2]
  simp

/-- C7 witness: the amended claim at the spec's own example input, a stubbed
toe with mild pain. -/
theorem unmatched_conscious_input_moderate_witness :
    (perform_trauma_assessment pdStubbedToe).severityLevel = "moderate" ∧
    (perform_trauma_assessment pdStubbedToe).assessmentSteps =
      ABCDE_CHECKLIST :=
  unmatched_conscious_input_moderate pdStubbedToe ("stubbed toe")
    [("mild pain")] rfl rfl rfl rfl (by decide) (by decide) (by decide)
    (by decide) (by decide) (by decide)

/-- For every input, the ranger assessment steps are the fixed ABC strings. -/
theorem ranger_assessment_steps_value (pd : PatientData) :
    (perform_ranger_trauma_assessment pd).assessment_steps =
      RANGER_ABC_ASSESSMENT_STEPS := rfl

/-- For every input, the first five ranger next steps are the lifesaving
priority list. -/
theorem ranger_next_steps_base (pd : PatientData) :
    (perform_ranger_trauma_assessment pd).next_steps.take 5 =
      RANGER_LIFESAVING_STEPS_priority_order := by
  by_cases h : ("heat_stroke") ∈ pd.reportedSymptoms.getD [] <;>
    simp [perform_ranger_trauma_assessment, h] <;> decide

/-- For every valid input, the civilian checklist fields are the fixed
reference lists. -/
theorem civilian_fixed_fields (pd : PatientData) (h : validInput pd) :
    (perform_trauma_assessment pd).assessmentSteps = ABCDE_CHECKLIST ∧
    (perform_trauma_assessment pd).nextSteps = CIVILIAN_NEXT_STEPS := by
  obtain ⟨h1, h2, h3⟩ := h
  obtain ⟨m, hm⟩ := Option.isSome_iff_exists.mp h1
  obtain ⟨ss, hs⟩ := Option.isSome_iff_exists.mp h2
  obtain ⟨c, hc⟩ := Option.isSome_iff_exists.mp h3
  simp [perform_trauma_assessment, hm, hs, hc]

/-- C5: for every pair of non-error classifications the assessment-steps
lists are equal (a fixed checklist) and the base next-steps content is
equal (a fixed list independent of severity): for the ranger classifier the
assessment steps and the five base next steps agree for all inputs, and for
the civilian classifier the assessmentSteps and nextSteps agree for all
valid inputs. -/
theorem checklists_constant_across_inputs (a b : PatientData) :
    ((perform_ranger_trauma_assessment a).assessment_steps =
       (perform_ranger_trauma_assessment b).assessment_steps ∧
     (perform_ranger_trauma_assessment a).next_steps.take 5 =
       (perform_ranger_trauma_assessment b).next_steps.take 5) ∧
    (validInput a → validInput b →
      (perform_trauma_assessment a).assessmentSteps =
        (perform_trauma_assessment b).assessmentSteps ∧
      (perform_trauma_assessment a).nextSteps =
        (perform_trauma_assessment b).nextSteps) := by
  refine ⟨⟨rfl, ?_⟩, fun ha hb => ?_⟩
  · rw [ranger_next_steps_base a, ranger_next_steps_base b]
  · rw [(civilian_fixed_fields a ha).1, (civilian_fixed_fields b hb).1,
      (civilian_fixed_fields a ha).2, (civilian_fixed_fields b hb).2]
    exact ⟨rfl, rfl⟩

/-- C5 witness: the constant-checklists claim at two concrete valid inputs,
one of which takes the heat-stroke extension. -/
theorem checklists_constant_across_inputs_witness :
    ((perform_ranger_trauma_assessment pdTwistedAnkle).assessment_steps =
       (perform_ranger_trauma_assessment pdHeatStroke).assessment_steps ∧
     (perform_ranger_trauma_assessment pdTwistedAnkle).next_steps.take 5 =
       (perform_ranger_trauma_assessment pdHeatStroke).next_steps.take 5) ∧
    ((perform_trauma_assessment pdTwistedAnkle).assessmentSteps =
       (perform_trauma_assessment pdHeatStroke).assessmentSteps ∧
     (perform_trauma_assessment pdTwistedAnkle).nextSteps =
       (perform_trauma_assessment pdHeatStroke).nextSteps) :=
  ⟨(checklists_constant_across_inputs pdTwistedAnkle pdHeatStroke).1,
   (checklists_constant_across_inputs pdTwistedAnkle pdHeatStroke).2
     (by decide) (by decide)⟩
